import Mathlib

/-!
Verification of the JSON Web Token signing core of ofxHTTP
(`src/libs/ofxHTTP/src/JSONWebToken.cpp`), as a shallow embedding.

Header and payload documents are modelled as association lists from string
keys to JSON-like scalar values; the external URL-safe Base64 codec and the
RSA-SHA256 signing primitive are modelled at their interface boundary.
-/

/-- A JSON-like scalar value stored in a token document: a string or an
unsigned integer (the only value shapes the typed setters write). -/
inductive JsonValue where
  | str (s : String)
  | num (n : Nat)
deriving DecidableEq

/-- A token document: the generic ordered mapping from string keys to scalar
values underlying `JSONWebTokenData`. -/
abbrev Doc := List (String × JsonValue)

/-- Lookup of a key in a document (the mapping's find-by-key operation). -/
def lookupKey : Doc → String → Option JsonValue
  | [], _ => none
  | (k', v) :: rest, k => if k' = k then some v else lookupKey rest k

namespace JSONWebTokenData

/-- Modelled from the spec: `set(key, value)` of the underlying structured
document, §4.1 "inserts or overwrites `key -> value`; always succeeds"
(declared in the header `JSONWebToken.h`, which is not under `src/`). -/
def set (d : Doc) (key : String) (value : JsonValue) : Doc :=
  match d with
  | [] => [(key, value)]
  | (k', v') :: rest => if k' = key then (key, value) :: rest else (k', v') :: set rest key value

end JSONWebTokenData

theorem lookupKey_set_self (d : Doc) (k : String) (v : JsonValue) :
    lookupKey (JSONWebTokenData.set d k v) k = some v := by
  induction d with
  | nil => simp [JSONWebTokenData.set, lookupKey]
  | cons p rest ih =>
    obtain ⟨k', v'⟩ := p
    by_cases h : k' = k
    · simp [JSONWebTokenData.set, lookupKey, h]
    · simp [JSONWebTokenData.set, lookupKey, h, ih]

theorem lookupKey_set_other (d : Doc) (k : String) (v : JsonValue) (k' : String)
    (h : k' ≠ k) : lookupKey (JSONWebTokenData.set d k v) k' = lookupKey d k' := by
  induction d with
  | nil => simp [JSONWebTokenData.set, lookupKey, Ne.symm h]
  | cons p rest ih =>
    obtain ⟨k0, v0⟩ := p
    by_cases h0 : k0 = k
    · subst h0
      simp [JSONWebTokenData.set, lookupKey, Ne.symm h]
    · simp only [JSONWebTokenData.set, if_neg h0]
      by_cases h1 : k0 = k'
      · simp [lookupKey, h1]
      · simp [lookupKey, h1, ih]

/-- Modelled from the spec: the URL-safe Base64 alphabet of the external codec
capability, §6 "no padding, URL-safe alphabet" with `-`/`_` substitutions. -/
def b64Alphabet : List Char :=
  ("ABCDEFGHIJKLMNOPQRSTUVWXYZabcdefghijklmnopqrstuvwxyz0123456789-_").data

/-- The alphabet character for a sextet value. -/
def b64Char (n : Nat) : Char := b64Alphabet.getD n 'A'

def b64IndexAux : List Char → Nat → Char → Option Nat
  | [], _, _ => none
  | a :: rest, i, c => if a = c then some i else b64IndexAux rest (i + 1) c

/-- The sextet value of an alphabet character, `none` for a foreign character. -/
def b64Index (c : Char) : Option Nat := b64IndexAux b64Alphabet 0 c

/-- Modelled from the spec: `base64url_encode(bytes) -> string` of the external
codec capability (§6), RFC 4648 URL-safe alphabet without padding. -/
def b64urlEncode : List Nat → List Char
  | [] => []
  | [b0] => [b64Char (b0 / 4), b64Char (b0 % 4 * 16)]
  | [b0, b1] => [b64Char (b0 / 4), b64Char (b0 % 4 * 16 + b1 / 16), b64Char (b1 % 16 * 4)]
  | b0 :: b1 :: b2 :: rest =>
    b64Char (b0 / 4) :: b64Char (b0 % 4 * 16 + b1 / 16) ::
      b64Char (b1 % 16 * 4 + b2 / 64) :: b64Char (b2 % 64) :: b64urlEncode rest

/-- Modelled from the spec: `decode(string) -> bytes, or fails on malformed
input` of the external codec capability (§1), inverse of `b64urlEncode`. -/
def b64urlDecode : List Char → Option (List Nat)
  | [] => some []
  | [_] => none
  | [c0, c1] =>
    match b64Index c0, b64Index c1 with
    | some n0, some n1 => if n1 % 16 = 0 then some [n0 * 4 + n1 / 16] else none
    | _, _ => none
  | [c0, c1, c2] =>
    match b64Index c0, b64Index c1, b64Index c2 with
    | some n0, some n1, some n2 =>
      if n2 % 4 = 0 then some [n0 * 4 + n1 / 16, n1 % 16 * 16 + n2 / 4] else none
    | _, _, _ => none
  | c0 :: c1 :: c2 :: c3 :: rest =>
    match b64Index c0, b64Index c1, b64Index c2, b64Index c3, b64urlDecode rest with
    | some n0, some n1, some n2, some n3, some tail =>
      some ((n0 * 4 + n1 / 16) :: (n1 % 16 * 16 + n2 / 4) :: (n2 % 4 * 64 + n3) :: tail)
    | _, _, _, _, _ => none

theorem b64Index_b64Char_all : ∀ n, n < 64 → b64Index (b64Char n) = some n := by decide

theorem b64Alphabet_length : b64Alphabet.length = 64 := by decide

theorem b64Char_mem_small : ∀ n, n < 64 → b64Char n ∈ b64Alphabet := by decide

theorem b64Char_mem (n : Nat) : b64Char n ∈ b64Alphabet := by
  by_cases h : n < 64
  · exact b64Char_mem_small n h
  · have hlen : b64Alphabet.length ≤ n := by rw [b64Alphabet_length]; omega
    have hnone : b64Alphabet[n]? = none := List.getElem?_eq_none hlen
    simp [b64Char, List.getD, hnone]
    decide

theorem mem_b64Alphabet_of_mem_encode :
    ∀ (bs : List Nat) (c : Char), c ∈ b64urlEncode bs → c ∈ b64Alphabet
  | [], _, h => by simp [b64urlEncode] at h
  | [b0], c, h => by
    simp [b64urlEncode] at h
    rcases h with h | h <;> (subst h; exact b64Char_mem _)
  | [b0, b1], c, h => by
    simp [b64urlEncode] at h
    rcases h with h | h | h <;> (subst h; exact b64Char_mem _)
  | b0 :: b1 :: b2 :: rest, c, h => by
    simp [b64urlEncode] at h
    rcases h with h | h | h | h | h
    · subst h; exact b64Char_mem _
    · subst h; exact b64Char_mem _
    · subst h; exact b64Char_mem _
    · subst h; exact b64Char_mem _
    · exact mem_b64Alphabet_of_mem_encode rest c h

theorem b64urlEncode_ne_nil {bs : List Nat} (h : bs ≠ []) : b64urlEncode bs ≠ [] := by
  match bs with
  | [] => exact absurd rfl h
  | [b0] => simp [b64urlEncode]
  | [b0, b1] => simp [b64urlEncode]
  | b0 :: b1 :: b2 :: rest => simp [b64urlEncode]

theorem b64urlDecode_b64urlEncode :
    ∀ (bs : List Nat), (∀ b ∈ bs, b < 256) → b64urlDecode (b64urlEncode bs) = some bs
  | [], _ => rfl
  | [b0], hb => by
    have h0 : b0 < 256 := hb b0 (by simp)
    have e0 := b64Index_b64Char_all (b0 / 4) (by omega)
    have e1 := b64Index_b64Char_all (b0 % 4 * 16) (by omega)
    have hc : b0 % 4 * 16 % 16 = 0 := by omega
    simp [b64urlEncode, b64urlDecode, e0, e1, hc]
    omega
  | [b0, b1], hb => by
    have h0 : b0 < 256 := hb b0 (by simp)
    have h1 : b1 < 256 := hb b1 (by simp)
    have e0 := b64Index_b64Char_all (b0 / 4) (by omega)
    have e1 := b64Index_b64Char_all (b0 % 4 * 16 + b1 / 16) (by omega)
    have e2 := b64Index_b64Char_all (b1 % 16 * 4) (by omega)
    have hc : b1 % 16 * 4 % 4 = 0 := by omega
    simp [b64urlEncode, b64urlDecode, e0, e1, e2, hc]
    omega
  | b0 :: b1 :: b2 :: rest, hb => by
    have h0 : b0 < 256 := hb b0 (by simp)
    have h1 : b1 < 256 := hb b1 (by simp)
    have h2 : b2 < 256 := hb b2 (by simp)
    have hrest : ∀ b ∈ rest, b < 256 := fun b hmem => hb b (by simp [hmem])
    have e0 := b64Index_b64Char_all (b0 / 4) (by omega)
    have e1 := b64Index_b64Char_all (b0 % 4 * 16 + b1 / 16) (by omega)
    have e2 := b64Index_b64Char_all (b1 % 16 * 4 + b2 / 64) (by omega)
    have e3 := b64Index_b64Char_all (b2 % 64) (by omega)
    have etail := b64urlDecode_b64urlEncode rest hrest
    simp [b64urlEncode, b64urlDecode, e0, e1, e2, e3, etail]
    omega

/-- Left brace character of the JSON object serialization. -/
def lbrace : Char := Char.ofNat 123

/-- Right brace character of the JSON object serialization. -/
def rbrace : Char := Char.ofNat 125

/-- Modelled from the spec: JSON string escaping of the external structured
document representation's serializer (§1, §6 "JSON-style serialization"). -/
def escapeChar (c : Char) : List Char :=
  if c = '"' then ['\\', '"']
  else if c = '\\' then ['\\', '\\']
  else if c = Char.ofNat 10 then ['\\', 'n']
  else if c = Char.ofNat 9 then ['\\', 't']
  else if c = Char.ofNat 13 then ['\\', 'r']
  else [c]

/-- A JSON string literal rendering. -/
def dumpString (s : String) : List Char :=
  '"' :: ((s.data.map escapeChar).flatten ++ ['"'])

/-- A JSON scalar value rendering. -/
def dumpValue : JsonValue → List Char
  | JsonValue.str s => dumpString s
  | JsonValue.num n => (Nat.repr n).data

/-- The comma-separated `"key":value` entries of the object rendering. -/
def dumpEntries : Doc → List Char
  | [] => []
  | [(k, v)] => dumpString k ++ ':' :: dumpValue v
  | (k, v) :: rest => dumpString k ++ ':' :: dumpValue v ++ ',' :: dumpEntries rest

namespace JSONWebTokenData

/-- Modelled from the spec: the compact (non-indented) JSON serialization of
the document, produced by the external structured-document capability
(`_data.dump()` in the source; §4.1 "the *compact* (non-indented)
serialization"). -/
def dump (d : Doc) : List Char := lbrace :: (dumpEntries d ++ [rbrace])

/-- The bytes of the compact serialization (documents here hold ASCII data,
where character codes coincide with the UTF-8 bytes). -/
def dumpBytes (d : Doc) : List Nat := (dump d).map Char.toNat

/-- `JSONWebTokenData::asBase64URLEncodedString`: the URL-safe Base64 encoding
of the compact serialization of the document. -/
def asBase64URLEncodedString (d : Doc) : String :=
  String.mk (b64urlEncode (dumpBytes d))

/-- `JSONWebTokenData::clear`: the source runs `_data.erase(_data.find(name))`.
`find` yields the position of the key, or the end iterator when absent; `erase`
of the end iterator is undefined behavior in the underlying document library
(an assertion failure), modelled as `none`. -/
def clear (d : Doc) (name : String) : Option Doc :=
  match findIter d name with
  | some i => some (d.eraseIdx i)
  | none => none
where
  /-- Model of `_data.find(name)`: index of the entry, `none` for end. -/
  findIter : Doc → String → Option Nat
    | [], _ => none
    | (k', _) :: rest, k => if k' = k then some 0 else (findIter rest k).map (· + 1)

end JSONWebTokenData

namespace JSONWebTokenHeader

def TYP : String := "typ"

def CTY : String := "cty"

/-- `JSONWebTokenHeader::setType`. -/
def setType (d : Doc) (type : String) : Doc :=
  JSONWebTokenData.set d TYP (JsonValue.str type)

/-- `JSONWebTokenHeader::setContentType`. -/
def setContentType (d : Doc) (contentType : String) : Doc :=
  JSONWebTokenData.set d CTY (JsonValue.str contentType)

end JSONWebTokenHeader

namespace JSONWebSignatureHeader

def ALG : String := "alg"

def KID : String := "kid"

/-- Modelled from the spec: the signature algorithm identifier enum declared
in `JSONWebToken.h` (not under `src/`); §4.2 and §9: `RS256` today, plus an
explicit unrecognized case for every other enum value. -/
inductive Algorithm where
  | RS256
  | unrecognized
deriving DecidableEq

/-- `JSONWebSignatureHeader::toString` over the algorithm enum: `"RS256"` for
the `RS256` case, the sentinel `"UNKNOWN"` for every other case. -/
def algorithmToString : Algorithm → String
  | Algorithm.RS256 => "RS256"
  | _ => "UNKNOWN"

/-- `JSONWebSignatureHeader::setAlgorithm`. -/
def setAlgorithm (d : Doc) (algorithm : Algorithm) : Doc :=
  JSONWebTokenData.set d ALG (JsonValue.str (algorithmToString algorithm))

/-- `JSONWebSignatureHeader::setKeyId`. -/
def setKeyId (d : Doc) (keyId : String) : Doc :=
  JSONWebTokenData.set d KID (JsonValue.str keyId)

end JSONWebSignatureHeader

namespace JSONWebTokenPayload

def ISS : String := "iss"

def AUD : String := "aud"

def JTI : String := "jti"

def IAT : String := "iat"

def EXP : String := "exp"

def NBF : String := "nbf"

def TYP : String := "typ"

def SUB : String := "sub"

/-- `JSONWebTokenPayload::setIssuer`. -/
def setIssuer (d : Doc) (issuer : String) : Doc :=
  JSONWebTokenData.set d ISS (JsonValue.str issuer)

/-- `JSONWebTokenPayload::setAudience(const std::string&)`. -/
def setAudience (d : Doc) (audience : String) : Doc :=
  JSONWebTokenData.set d AUD (JsonValue.str audience)

/-- `std::unique` over the audience vector: removes the consecutive duplicate
entries only, keeping the first entry of each run of equal neighbours. -/
def dedupAdjacent : List String → List String
  | [] => []
  | [a] => [a]
  | a :: b :: rest =>
    if a = b then dedupAdjacent (b :: rest) else a :: dedupAdjacent (b :: rest)

/-- The single-space join over the audience entries (the stringstream loop of
the source: a space before every entry except the first). -/
def joinSpace : List String → String
  | [] => ""
  | [a] => a
  | a :: b :: rest => a ++ " " ++ joinSpace (b :: rest)

/-- `JSONWebTokenPayload::setAudience(const std::vector<std::string>&)`: runs
`std::unique` over a copy of the vector, joins with single spaces, and
delegates to the string overload. -/
def setAudienceList (d : Doc) (audience : List String) : Doc :=
  setAudience d (joinSpace (dedupAdjacent audience))

/-- `JSONWebTokenPayload::setId`. -/
def setId (d : Doc) (id : String) : Doc :=
  JSONWebTokenData.set d JTI (JsonValue.str id)

/-- `JSONWebTokenPayload::setIssuedAtTime`. -/
def setIssuedAtTime (d : Doc) (time : Nat) : Doc :=
  JSONWebTokenData.set d IAT (JsonValue.num time)

/-- `JSONWebTokenPayload::setExpirationTime`. -/
def setExpirationTime (d : Doc) (time : Nat) : Doc :=
  JSONWebTokenData.set d EXP (JsonValue.num time)

/-- `JSONWebTokenPayload::setNotBeforeTime`. -/
def setNotBeforeTime (d : Doc) (time : Nat) : Doc :=
  JSONWebTokenData.set d NBF (JsonValue.num time)

/-- `JSONWebTokenPayload::setType`. -/
def setType (d : Doc) (type : String) : Doc :=
  JSONWebTokenData.set d TYP (JsonValue.str type)

/-- `JSONWebTokenPayload::setSubject`. -/
def setSubject (d : Doc) (subject : String) : Doc :=
  JSONWebTokenData.set d SUB (JsonValue.str subject)

end JSONWebTokenPayload

/-- The bytes of a string (ASCII character codes, matching the `.data()` bytes
the source hands to the digest engine). -/
def strBytes (s : String) : List Nat := s.data.map Char.toNat

namespace JSONWebToken

/-- The signing input `encodedHeaderAndClaims` of the source: encoded header,
one ASCII period, encoded payload. -/
def signingInput (header payload : Doc) : String :=
  JSONWebTokenData.asBase64URLEncodedString header ++ "." ++
    JSONWebTokenData.asBase64URLEncodedString payload

/-- `JSONWebToken::generateToken`. The external RSA key loading and
PKCS#1 v1.5 SHA-256 signing (Poco) are one capability parameter `sign`
(spec §6: `rsa_sign_sha256(message_bytes, pem_private_key, passphrase) ->
signature_bytes | error`); `none` from the capability is the key-loading or
signing failure, which the source does not catch, so no token results.
When the `alg` key is present the source reads it and either rejects it with
an empty-string return (`is_string()` false, or string comparison with
`"RS256"` non-zero) or proceeds to sign. When the `alg` key is absent, the
read itself — `header.data()[ALG]` through a `const` reference, the `const`
`operator[]` of the underlying document library — faults before any value is
produced: it throws on an empty (null) document and is an assertion failure /
undefined behavior on an object lacking the key. That missing-key fault never
returns a string, and is modelled as `none`, like the other uncaught faults
of this function. -/
def generateToken (sign : List Nat → String → String → Option (List Nat))
    (privateKey privateKeyPassphrase : String)
    (header payload : Doc) : Option String :=
  match lookupKey header JSONWebSignatureHeader.ALG with
  | some (JsonValue.str alg) =>
    if alg = "RS256" then
      match sign (strBytes (signingInput header payload)) privateKey privateKeyPassphrase with
      | some signature =>
        some (signingInput header payload ++ "." ++ String.mk (b64urlEncode signature))
      | none => none
    else some ""
  | some (JsonValue.num _) => some ""
  | none => none

end JSONWebToken

theorem strData_append (a b : String) : (a ++ b).data = a.data ++ b.data := rfl

theorem dumpBytes_ne_nil (d : Doc) : JSONWebTokenData.dumpBytes d ≠ [] := by
  simp [JSONWebTokenData.dumpBytes, JSONWebTokenData.dump]

theorem count_dot_segments (e1 e2 e3 : List Char)
    (h1 : '.' ∉ e1) (h2 : '.' ∉ e2) (h3 : '.' ∉ e3) :
    (e1 ++ '.' :: (e2 ++ '.' :: e3)).count '.' = 2 := by
  simp [List.count_append, List.count_cons, List.count_eq_zero.mpr h1,
    List.count_eq_zero.mpr h2, List.count_eq_zero.mpr h3]

/-- Sample signature header with the `alg` field set to `"RS256"`. -/
def sampleHeader : Doc := [("alg", JsonValue.str "RS256")]

/-- Sample payload with an issuer claim. -/
def samplePayload : Doc := [("iss", JsonValue.str "issuer1")]

/-- Sample signing capability that succeeds with a fixed three-byte signature. -/
def sampleSign : List Nat → String → String → Option (List Nat) :=
  fun _ _ _ => some [1, 2, 3]

/-- Sample signing capability that always fails (bad key material). -/
def sampleSignFail : List Nat → String → String → Option (List Nat) :=
  fun _ _ _ => none

/-- Claim C1: for every header whose `alg` field is the string `"RS256"` and
every payload and key input on which the signing capability succeeds,
`generateToken` returns `encodeCompact(header) ++ "." ++ encodeCompact(payload)
++ "." ++ base64url(signature)`: header segment first, payload segment second,
a single ASCII period between segments, so the result has exactly two `'.'`
separators and three non-empty URL-safe-Base64 segments with no `'+'`, `'/'`
or `'='` characters. -/
theorem C1_token_format
    (sign : List Nat → String → String → Option (List Nat))
    (pk pp : String) (header payload : Doc) (sig : List Nat)
    (halg : lookupKey header JSONWebSignatureHeader.ALG = some (JsonValue.str "RS256"))
    (hsig : sign (strBytes (JSONWebToken.signingInput header payload)) pk pp = some sig)
    (hne : sig ≠ []) :
    JSONWebToken.generateToken sign pk pp header payload =
      some (JSONWebTokenData.asBase64URLEncodedString header ++ "." ++
        JSONWebTokenData.asBase64URLEncodedString payload ++ "." ++
        String.mk (b64urlEncode sig)) ∧
    (JSONWebTokenData.asBase64URLEncodedString header ++ "." ++
        JSONWebTokenData.asBase64URLEncodedString payload ++ "." ++
        String.mk (b64urlEncode sig)).data.count '.' = 2 ∧
    ((JSONWebTokenData.asBase64URLEncodedString header).data ≠ [] ∧
      ∀ c ∈ (JSONWebTokenData.asBase64URLEncodedString header).data, c ∈ b64Alphabet) ∧
    ((JSONWebTokenData.asBase64URLEncodedString payload).data ≠ [] ∧
      ∀ c ∈ (JSONWebTokenData.asBase64URLEncodedString payload).data, c ∈ b64Alphabet) ∧
    (b64urlEncode sig ≠ [] ∧ ∀ c ∈ b64urlEncode sig, c ∈ b64Alphabet) ∧
    '+' ∉ b64Alphabet ∧ '/' ∉ b64Alphabet ∧ '=' ∉ b64Alphabet ∧ '.' ∉ b64Alphabet := by
  have hdot : '.' ∉ b64Alphabet := by decide
  have hH : ∀ c ∈ (JSONWebTokenData.asBase64URLEncodedString header).data, c ∈ b64Alphabet :=
    fun c hc => mem_b64Alphabet_of_mem_encode _ c hc
  have hP : ∀ c ∈ (JSONWebTokenData.asBase64URLEncodedString payload).data, c ∈ b64Alphabet :=
    fun c hc => mem_b64Alphabet_of_mem_encode _ c hc
  have hS : ∀ c ∈ b64urlEncode sig, c ∈ b64Alphabet :=
    fun c hc => mem_b64Alphabet_of_mem_encode _ c hc
  refine ⟨?_, ?_, ⟨b64urlEncode_ne_nil (dumpBytes_ne_nil header), hH⟩,
    ⟨b64urlEncode_ne_nil (dumpBytes_ne_nil payload), hP⟩,
    ⟨b64urlEncode_ne_nil hne, hS⟩, by decide, by decide, by decide, hdot⟩
  · unfold JSONWebToken.generateToken
    rw [halg]
    simp only [JSONWebToken.signingInput] at hsig ⊢
    simp [hsig]
  · have hdata :
        (JSONWebTokenData.asBase64URLEncodedString header ++ "." ++
          JSONWebTokenData.asBase64URLEncodedString payload ++ "." ++
          String.mk (b64urlEncode sig)).data =
        (JSONWebTokenData.asBase64URLEncodedString header).data ++
          '.' :: ((JSONWebTokenData.asBase64URLEncodedString payload).data ++
            '.' :: b64urlEncode sig) := by
      simp [strData_append]
    rw [hdata]
    exact count_dot_segments _ _ _
      (fun hmem => hdot (hH '.' hmem)) (fun hmem => hdot (hP '.' hmem))
      (fun hmem => hdot (hS '.' hmem))

/-- Witness for C1 at a concrete header, payload and signing capability. -/
theorem C1_witness :
    lookupKey sampleHeader JSONWebSignatureHeader.ALG = some (JsonValue.str "RS256") ∧
    sampleSign (strBytes (JSONWebToken.signingInput sampleHeader samplePayload)) "k" "" =
      some [1, 2, 3] ∧
    JSONWebToken.generateToken sampleSign "k" "" sampleHeader samplePayload =
      some (JSONWebTokenData.asBase64URLEncodedString sampleHeader ++ "." ++
        JSONWebTokenData.asBase64URLEncodedString samplePayload ++ "." ++
        String.mk (b64urlEncode [1, 2, 3])) :=
  ⟨by decide, rfl, (C1_token_format sampleSign "k" "" sampleHeader samplePayload [1, 2, 3]
    (by decide) rfl (by decide)).1⟩

/-- Claim C2: URL-safe-Base64 decoding of an encoded segment yields, byte for
byte, the compact (non-indented) serialization of the document:
`asBase64URLEncodedString` is exactly the unpadded URL-safe Base64 encoding of
the compact serialization, and decoding is a left inverse of it on every
document (whose serialization is ASCII, where character codes are the bytes). -/
theorem C2_decode_left_inverse (d : Doc)
    (hascii : ∀ c ∈ JSONWebTokenData.dump d, c.toNat < 128) :
    JSONWebTokenData.asBase64URLEncodedString d =
      String.mk (b64urlEncode (JSONWebTokenData.dumpBytes d)) ∧
    b64urlDecode (JSONWebTokenData.asBase64URLEncodedString d).data =
      some (JSONWebTokenData.dumpBytes d) := by
  refine ⟨rfl, ?_⟩
  have hb : ∀ b ∈ JSONWebTokenData.dumpBytes d, b < 256 := by
    intro b hmem
    simp only [JSONWebTokenData.dumpBytes, List.mem_map] at hmem
    obtain ⟨c, hc, hcb⟩ := hmem
    have := hascii c hc
    omega
  exact b64urlDecode_b64urlEncode _ hb

/-- Witness for C2 at a concrete document. -/
theorem C2_witness :
    (∀ c ∈ JSONWebTokenData.dump sampleHeader, c.toNat < 128) ∧
    b64urlDecode (JSONWebTokenData.asBase64URLEncodedString sampleHeader).data =
      some (JSONWebTokenData.dumpBytes sampleHeader) :=
  ⟨by decide, (C2_decode_left_inverse sampleHeader (by decide)).2⟩

theorem generateToken_rejects_present
    (sign : List Nat → String → String → Option (List Nat))
    (pk pp : String) (header payload : Doc) (a : String)
    (hl : lookupKey header JSONWebSignatureHeader.ALG = some (JsonValue.str a))
    (ha : a ≠ "RS256") :
    JSONWebToken.generateToken sign pk pp header payload = some "" := by
  unfold JSONWebToken.generateToken
  rw [hl]
  simp [ha]

/-- Claim C3 (code evaluation): the claim says that for an absent, non-string
or non-`"RS256"` `alg` field, `generateToken` signals an error and returns the
empty string before any cryptographic work. The code delivers this only when
the `alg` key is *present*: a non-`"RS256"` string or a non-string value gives
the clean empty-string return, for every signing capability. When the key is
*absent*, the very first read `header.data()[ALG]` (`const` `operator[]` of
the document library) faults — throw on an empty document, assertion failure /
undefined behavior on an object without the key — so the call never returns
the empty string there (modelled as `none`), for every signing capability and
key material. -/
theorem C3_code_eval :
    JSONWebToken.generateToken sampleSign "k" "" [] samplePayload = none ∧
    JSONWebToken.generateToken sampleSignFail "other" "pass" [] samplePayload = none ∧
    JSONWebToken.generateToken sampleSign "k" ""
      [("iss", JsonValue.str "issuer1")] samplePayload = none ∧
    JSONWebToken.generateToken sampleSign "k" ""
      [("alg", JsonValue.str "HS256")] samplePayload = some "" ∧
    JSONWebToken.generateToken sampleSignFail "other" "pass"
      [("alg", JsonValue.str "HS256")] samplePayload = some "" ∧
    JSONWebToken.generateToken sampleSign "k" ""
      [("alg", JsonValue.num 5)] samplePayload = some "" := by
  refine ⟨rfl, rfl, by decide, by decide, by decide, by decide⟩

/-- Claim C4 (code evaluation): the source deduplicates the audience vector
with `std::unique` without sorting, which removes only adjacent duplicates, so
`setAudience(["a","b","a","c"])` stores `"a b a c"`, not the `"a b c"` the
claim states. -/
theorem C4_code_eval :
    JSONWebTokenPayload.dedupAdjacent ["a", "b", "a", "c"] = ["a", "b", "a", "c"] ∧
    lookupKey (JSONWebTokenPayload.setAudienceList [] ["a", "b", "a", "c"])
      JSONWebTokenPayload.AUD = some (JsonValue.str "a b a c") ∧
    lookupKey (JSONWebTokenPayload.setAudienceList [] ["a", "b", "a", "c"])
      JSONWebTokenPayload.AUD ≠ some (JsonValue.str "a b c") := by
  refine ⟨by decide, by decide, by decide⟩

/-- Claim C5 (code evaluation): `JSONWebTokenData::clear` runs
`_data.erase(_data.find(name))`; on a document that does not contain the key,
`find` returns the end iterator and the erase faults (modelled as `none`), so
clearing an absent key is not a no-op as the claim requires, while clearing a
present key does remove it. -/
theorem C5_code_eval :
    JSONWebTokenData.clear [] "nonexistent-key" = none ∧
    JSONWebTokenData.clear [("iss", JsonValue.str "x")] "nonexistent-key" = none ∧
    JSONWebTokenData.clear [("iss", JsonValue.str "x")] "iss" = some [] := by
  refine ⟨rfl, by decide, by decide⟩

theorem setAlgorithm_not_rs256 (d : Doc) (a : JSONWebSignatureHeader.Algorithm)
    (ha : a ≠ JSONWebSignatureHeader.Algorithm.RS256) :
    lookupKey (JSONWebSignatureHeader.setAlgorithm d a) JSONWebSignatureHeader.ALG =
      some (JsonValue.str "UNKNOWN") := by
  cases a with
  | RS256 => exact absurd rfl ha
  | unrecognized => exact lookupKey_set_self d _ _

/-- Claim C6: `setAlgorithm` stores the canonical string of the enum value in
the `alg` field — `"RS256"` for the `RS256` case and the sentinel `"UNKNOWN"`
for every other case — and a header whose `alg` was set from any non-`RS256`
enum value is rejected by `generateToken` (no token produced). -/
theorem C6_setAlgorithm_canonical :
    (∀ d : Doc,
      lookupKey (JSONWebSignatureHeader.setAlgorithm d JSONWebSignatureHeader.Algorithm.RS256)
        JSONWebSignatureHeader.ALG = some (JsonValue.str "RS256")) ∧
    (∀ (d : Doc) (a : JSONWebSignatureHeader.Algorithm),
      a ≠ JSONWebSignatureHeader.Algorithm.RS256 →
      lookupKey (JSONWebSignatureHeader.setAlgorithm d a) JSONWebSignatureHeader.ALG =
        some (JsonValue.str "UNKNOWN")) ∧
    (∀ (sign : List Nat → String → String → Option (List Nat)) (pk pp : String)
      (d payload : Doc) (a : JSONWebSignatureHeader.Algorithm),
      a ≠ JSONWebSignatureHeader.Algorithm.RS256 →
      JSONWebToken.generateToken sign pk pp (JSONWebSignatureHeader.setAlgorithm d a) payload =
        some "") := by
  refine ⟨fun d => lookupKey_set_self d _ _, setAlgorithm_not_rs256, ?_⟩
  intro sign pk pp d payload a ha
  exact generateToken_rejects_present sign pk pp _ payload "UNKNOWN"
    (setAlgorithm_not_rs256 d a ha) (by decide)

/-- Witness for C6 at both enum values and a concrete rejected generation. -/
theorem C6_witness :
    lookupKey (JSONWebSignatureHeader.setAlgorithm [] JSONWebSignatureHeader.Algorithm.RS256)
      JSONWebSignatureHeader.ALG = some (JsonValue.str "RS256") ∧
    lookupKey (JSONWebSignatureHeader.setAlgorithm [] JSONWebSignatureHeader.Algorithm.unrecognized)
      JSONWebSignatureHeader.ALG = some (JsonValue.str "UNKNOWN") ∧
    JSONWebToken.generateToken sampleSign "k" ""
      (JSONWebSignatureHeader.setAlgorithm [] JSONWebSignatureHeader.Algorithm.unrecognized)
      samplePayload = some "" :=
  ⟨C6_setAlgorithm_canonical.1 [],
   C6_setAlgorithm_canonical.2.1 [] JSONWebSignatureHeader.Algorithm.unrecognized (by decide),
   C6_setAlgorithm_canonical.2.2 sampleSign "k" "" [] samplePayload
     JSONWebSignatureHeader.Algorithm.unrecognized (by decide)⟩

/-- Claim C7: with `alg = "RS256"`, if the external signing capability fails
(empty or malformed private key text, wrong passphrase), `generateToken`
produces no token: the failure is surfaced for the call, with no partial
output. -/
theorem C7_key_failure
    (sign : List Nat → String → String → Option (List Nat))
    (pk pp : String) (header payload : Doc)
    (halg : lookupKey header JSONWebSignatureHeader.ALG = some (JsonValue.str "RS256"))
    (hfail : sign (strBytes (JSONWebToken.signingInput header payload)) pk pp = none) :
    JSONWebToken.generateToken sign pk pp header payload = none := by
  unfold JSONWebToken.generateToken
  rw [halg]
  simp only [JSONWebToken.signingInput] at hfail ⊢
  simp [hfail]

/-- Witness for C7 with the always-failing signing capability. -/
theorem C7_witness :
    lookupKey sampleHeader JSONWebSignatureHeader.ALG = some (JsonValue.str "RS256") ∧
    sampleSignFail (strBytes (JSONWebToken.signingInput sampleHeader samplePayload)) "" "" =
      none ∧
    JSONWebToken.generateToken sampleSignFail "" "" sampleHeader samplePayload = none :=
  ⟨by decide, rfl, C7_key_failure sampleSignFail "" "" sampleHeader samplePayload (by decide) rfl⟩

/-- Split of a character list at the `'.'` separators, for talking about the
segments of a compact token. -/
def splitDots (l : List Char) : List (List Char) :=
  match l with
  | [] => [[]]
  | c :: rest =>
    if c = '.' then [] :: splitDots rest
    else
      match splitDots rest with
      | [] => [[c]]
      | s :: ss => (c :: s) :: ss

/-- Claim C8: `generateToken` is deterministic — two calls with the same
header, payload, key material, passphrase and (deterministic, PKCS#1 v1.5)
signing capability produce the same token, so the header, payload and
signature segments of the two outputs are identical. -/
theorem C8_deterministic
    (sign : List Nat → String → String → Option (List Nat))
    (pk pp : String) (header payload : Doc) (t₁ t₂ : String)
    (e₁ : JSONWebToken.generateToken sign pk pp header payload = some t₁)
    (e₂ : JSONWebToken.generateToken sign pk pp header payload = some t₂) :
    t₁ = t₂ ∧ splitDots t₁.data = splitDots t₂.data := by
  rw [e₁] at e₂
  injection e₂ with h
  exact ⟨h, by rw [h]⟩

/-- The concrete token produced for the sample inputs. -/
def sampleToken : String :=
  (JSONWebToken.generateToken sampleSign "k" "" sampleHeader samplePayload).getD ""

/-- Witness for C8 at the sample inputs. -/
theorem C8_witness :
    JSONWebToken.generateToken sampleSign "k" "" sampleHeader samplePayload =
      some sampleToken ∧
    sampleToken = sampleToken ∧
    splitDots sampleToken.data = splitDots sampleToken.data :=
  ⟨rfl, C8_deterministic sampleSign "k" "" sampleHeader samplePayload
    sampleToken sampleToken rfl rfl⟩

/-- Claim C9: every typed setter on Header, JWSHeader and Payload writes
exactly its one registered key — the lookup at that key afterwards yields the
written value — and leaves every other key of the document, and the values
bound to them, unchanged. -/
theorem C9_setter_frame :
    ((∀ (d : Doc) (x : String),
        lookupKey (JSONWebTokenHeader.setType d x) JSONWebTokenHeader.TYP =
          some (JsonValue.str x)) ∧
      (∀ (d : Doc) (x k : String), k ≠ JSONWebTokenHeader.TYP →
        lookupKey (JSONWebTokenHeader.setType d x) k = lookupKey d k)) ∧
    ((∀ (d : Doc) (x : String),
        lookupKey (JSONWebTokenHeader.setContentType d x) JSONWebTokenHeader.CTY =
          some (JsonValue.str x)) ∧
      (∀ (d : Doc) (x k : String), k ≠ JSONWebTokenHeader.CTY →
        lookupKey (JSONWebTokenHeader.setContentType d x) k = lookupKey d k)) ∧
    ((∀ (d : Doc) (x : JSONWebSignatureHeader.Algorithm),
        lookupKey (JSONWebSignatureHeader.setAlgorithm d x) JSONWebSignatureHeader.ALG =
          some (JsonValue.str (JSONWebSignatureHeader.algorithmToString x))) ∧
      (∀ (d : Doc) (x : JSONWebSignatureHeader.Algorithm) (k : String),
        k ≠ JSONWebSignatureHeader.ALG →
        lookupKey (JSONWebSignatureHeader.setAlgorithm d x) k = lookupKey d k)) ∧
    ((∀ (d : Doc) (x : String),
        lookupKey (JSONWebSignatureHeader.setKeyId d x) JSONWebSignatureHeader.KID =
          some (JsonValue.str x)) ∧
      (∀ (d : Doc) (x k : String), k ≠ JSONWebSignatureHeader.KID →
        lookupKey (JSONWebSignatureHeader.setKeyId d x) k = lookupKey d k)) ∧
    ((∀ (d : Doc) (x : String),
        lookupKey (JSONWebTokenPayload.setIssuer d x) JSONWebTokenPayload.ISS =
          some (JsonValue.str x)) ∧
      (∀ (d : Doc) (x k : String), k ≠ JSONWebTokenPayload.ISS →
        lookupKey (JSONWebTokenPayload.setIssuer d x) k = lookupKey d k)) ∧
    ((∀ (d : Doc) (x : String),
        lookupKey (JSONWebTokenPayload.setAudience d x) JSONWebTokenPayload.AUD =
          some (JsonValue.str x)) ∧
      (∀ (d : Doc) (x k : String), k ≠ JSONWebTokenPayload.AUD →
        lookupKey (JSONWebTokenPayload.setAudience d x) k = lookupKey d k)) ∧
    ((∀ (d : Doc) (x : String),
        lookupKey (JSONWebTokenPayload.setId d x) JSONWebTokenPayload.JTI =
          some (JsonValue.str x)) ∧
      (∀ (d : Doc) (x k : String), k ≠ JSONWebTokenPayload.JTI →
        lookupKey (JSONWebTokenPayload.setId d x) k = lookupKey d k)) ∧
    ((∀ (d : Doc) (x : Nat),
        lookupKey (JSONWebTokenPayload.setIssuedAtTime d x) JSONWebTokenPayload.IAT =
          some (JsonValue.num x)) ∧
      (∀ (d : Doc) (x : Nat) (k : String), k ≠ JSONWebTokenPayload.IAT →
        lookupKey (JSONWebTokenPayload.setIssuedAtTime d x) k = lookupKey d k)) ∧
    ((∀ (d : Doc) (x : Nat),
        lookupKey (JSONWebTokenPayload.setExpirationTime d x) JSONWebTokenPayload.EXP =
          some (JsonValue.num x)) ∧
      (∀ (d : Doc) (x : Nat) (k : String), k ≠ JSONWebTokenPayload.EXP →
        lookupKey (JSONWebTokenPayload.setExpirationTime d x) k = lookupKey d k)) ∧
    ((∀ (d : Doc) (x : Nat),
        lookupKey (JSONWebTokenPayload.setNotBeforeTime d x) JSONWebTokenPayload.NBF =
          some (JsonValue.num x)) ∧
      (∀ (d : Doc) (x : Nat) (k : String), k ≠ JSONWebTokenPayload.NBF →
        lookupKey (JSONWebTokenPayload.setNotBeforeTime d x) k = lookupKey d k)) ∧
    ((∀ (d : Doc) (x : String),
        lookupKey (JSONWebTokenPayload.setType d x) JSONWebTokenPayload.TYP =
          some (JsonValue.str x)) ∧
      (∀ (d : Doc) (x k : String), k ≠ JSONWebTokenPayload.TYP →
        lookupKey (JSONWebTokenPayload.setType d x) k = lookupKey d k)) ∧
    ((∀ (d : Doc) (x : String),
        lookupKey (JSONWebTokenPayload.setSubject d x) JSONWebTokenPayload.SUB =
          some (JsonValue.str x)) ∧
      (∀ (d : Doc) (x k : String), k ≠ JSONWebTokenPayload.SUB →
        lookupKey (JSONWebTokenPayload.setSubject d x) k = lookupKey d k)) :=
  ⟨⟨fun d _ => lookupKey_set_self d _ _, fun d _ k hk => lookupKey_set_other d _ _ k hk⟩,
   ⟨fun d _ => lookupKey_set_self d _ _, fun d _ k hk => lookupKey_set_other d _ _ k hk⟩,
   ⟨fun d _ => lookupKey_set_self d _ _, fun d _ k hk => lookupKey_set_other d _ _ k hk⟩,
   ⟨fun d _ => lookupKey_set_self d _ _, fun d _ k hk => lookupKey_set_other d _ _ k hk⟩,
   ⟨fun d _ => lookupKey_set_self d _ _, fun d _ k hk => lookupKey_set_other d _ _ k hk⟩,
   ⟨fun d _ => lookupKey_set_self d _ _, fun d _ k hk => lookupKey_set_other d _ _ k hk⟩,
   ⟨fun d _ => lookupKey_set_self d _ _, fun d _ k hk => lookupKey_set_other d _ _ k hk⟩,
   ⟨fun d _ => lookupKey_set_self d _ _, fun d _ k hk => lookupKey_set_other d _ _ k hk⟩,
   ⟨fun d _ => lookupKey_set_self d _ _, fun d _ k hk => lookupKey_set_other d _ _ k hk⟩,
   ⟨fun d _ => lookupKey_set_self d _ _, fun d _ k hk => lookupKey_set_other d _ _ k hk⟩,
   ⟨fun d _ => lookupKey_set_self d _ _, fun d _ k hk => lookupKey_set_other d _ _ k hk⟩,
   ⟨fun d _ => lookupKey_set_self d _ _, fun d _ k hk => lookupKey_set_other d _ _ k hk⟩⟩

/-- Witness for C9: each setter's frame conjunct at a concrete document and a
concrete foreign key. -/
theorem C9_witness :
    lookupKey (JSONWebTokenHeader.setType samplePayload "JWT") "iss" =
      lookupKey samplePayload "iss" ∧
    lookupKey (JSONWebTokenHeader.setContentType samplePayload "ct") "iss" =
      lookupKey samplePayload "iss" ∧
    lookupKey (JSONWebSignatureHeader.setAlgorithm samplePayload
        JSONWebSignatureHeader.Algorithm.RS256) "iss" =
      lookupKey samplePayload "iss" ∧
    lookupKey (JSONWebSignatureHeader.setKeyId samplePayload "key1") "iss" =
      lookupKey samplePayload "iss" ∧
    lookupKey (JSONWebTokenPayload.setIssuer sampleHeader "me") "alg" =
      lookupKey sampleHeader "alg" ∧
    lookupKey (JSONWebTokenPayload.setAudience sampleHeader "aud1") "alg" =
      lookupKey sampleHeader "alg" ∧
    lookupKey (JSONWebTokenPayload.setId sampleHeader "id1") "alg" =
      lookupKey sampleHeader "alg" ∧
    lookupKey (JSONWebTokenPayload.setIssuedAtTime sampleHeader 1000) "alg" =
      lookupKey sampleHeader "alg" ∧
    lookupKey (JSONWebTokenPayload.setExpirationTime sampleHeader 2000) "alg" =
      lookupKey sampleHeader "alg" ∧
    lookupKey (JSONWebTokenPayload.setNotBeforeTime sampleHeader 500) "alg" =
      lookupKey sampleHeader "alg" ∧
    lookupKey (JSONWebTokenPayload.setType sampleHeader "JWT") "alg" =
      lookupKey sampleHeader "alg" ∧
    lookupKey (JSONWebTokenPayload.setSubject sampleHeader "user42") "alg" =
      lookupKey sampleHeader "alg" :=
  ⟨C9_setter_frame.1.2 samplePayload "JWT" "iss" (by decide),
   C9_setter_frame.2.1.2 samplePayload "ct" "iss" (by decide),
   C9_setter_frame.2.2.1.2 samplePayload JSONWebSignatureHeader.Algorithm.RS256 "iss" (by decide),
   C9_setter_frame.2.2.2.1.2 samplePayload "key1" "iss" (by decide),
   C9_setter_frame.2.2.2.2.1.2 sampleHeader "me" "alg" (by decide),
   C9_setter_frame.2.2.2.2.2.1.2 sampleHeader "aud1" "alg" (by decide),
   C9_setter_frame.2.2.2.2.2.2.1.2 sampleHeader "id1" "alg" (by decide),
   C9_setter_frame.2.2.2.2.2.2.2.1.2 sampleHeader 1000 "alg" (by decide),
   C9_setter_frame.2.2.2.2.2.2.2.2.1.2 sampleHeader 2000 "alg" (by decide),
   C9_setter_frame.2.2.2.2.2.2.2.2.2.1.2 sampleHeader 500 "alg" (by decide),
   C9_setter_frame.2.2.2.2.2.2.2.2.2.2.1.2 sampleHeader "JWT" "alg" (by decide),
   C9_setter_frame.2.2.2.2.2.2.2.2.2.2.2.2 sampleHeader "user42" "alg" (by decide)⟩

/-- Claim C10: `setAudience` on the empty collection stores the empty string
as the `aud` field (the key is present with value `""`), and `setAudience` on
a one-element collection equals `setAudience` on that single string. -/
theorem C10_setAudience_edge_cases :
    (∀ d : Doc,
      lookupKey (JSONWebTokenPayload.setAudienceList d []) JSONWebTokenPayload.AUD =
        some (JsonValue.str "")) ∧
    (∀ (d : Doc) (s : String),
      JSONWebTokenPayload.setAudienceList d [s] = JSONWebTokenPayload.setAudience d s) := by
  constructor
  · intro d
    exact lookupKey_set_self d _ _
  · intro d s
    rfl
